import Mathlib

/-!
Shallow embedding of the `ez-hook` webhook client library, centred on the
delivery engine `RequestClient` (retry loop, backoff, response
classification, timeout/cancellation wiring) and the `Webhook` composer
(size-limit validation before delegating to the engine).

Numbers that are IEEE doubles in the source are modelled as rationals `ℚ`;
HTTP statuses are `Nat`.  JavaScript truthiness and the `??` / `||`
operators are modelled explicitly where the source relies on them.
-/

namespace EzHook

/-! Possible results of `Number.parseFloat` on a present header string:
`NaN`, `±Infinity`, or a finite numeric value. -/
inductive JsParse where
  | nan
  | inf
  | negInf
  | num (q : ℚ)
deriving DecidableEq, Repr

/-- `Number.isFinite` on a parse result. -/
def jsIsFinite : JsParse → Bool
  | .num _ => true
  | _ => false

/-- JavaScript truthiness of a number: `false` exactly for `NaN` and `0`. -/
def jsTruthy : JsParse → Bool
  | .nan => false
  | .inf => true
  | .negInf => true
  | .num q => decide (q ≠ 0)

/-- The numeric value carried by a finite parse result (`0` otherwise;
only consulted under a `jsIsFinite` guard). -/
def jsVal : JsParse → ℚ
  | .num q => q
  | _ => 0

/-- `response.headers.get('retry-after') ?? response.headers.get('x-ratelimit-reset-after')`:
prefer the first header, falling back to the second when absent.
`none` models an absent header; `some p` a present header whose
`Number.parseFloat` result is `p`. -/
def selectRetryHeader (retryAfter xRateLimitResetAfter : Option JsParse) :
    Option JsParse :=
  match retryAfter with
  | some v => some v
  | none => xRateLimitResetAfter

/-- `Number.isFinite(retryAfterSeconds) && retryAfterSeconds ? retryAfterSeconds * 1000 : undefined`
from `RequestClient.send`: the seconds value is kept and scaled to
milliseconds iff it is finite and truthy (nonzero). -/
def computeRetryAfterMs (retryAfterSeconds : Option JsParse) : Option ℚ :=
  match retryAfterSeconds with
  | none => none
  | some p => if jsIsFinite p && jsTruthy p then some (jsVal p * 1000) else none

/-- `RetryConfig` from `RequestClient.ts` (delays in milliseconds). -/
structure RetryConfig where
  maxRetries : Nat
  baseDelay : ℚ
  maxDelay : ℚ
deriving DecidableEq, Repr

/-- The hard-coded `DEFAULT_RETRY_CONFIG`. -/
def DEFAULT_RETRY_CONFIG : RetryConfig :=
  { maxRetries := 3, baseDelay := 1000, maxDelay := 60000 }

/-- `RequestClient.calculateBackoff`.  `rand` is the `Math.random()` draw,
a value in `[0,1)`; the source computes
`exponential = min(maxDelay, baseDelay * 2 ** retryCount)`,
`jitter = exponential * 0.2 * (rand - 0.5)` and returns
`max(0, exponential + jitter)`. -/
def calculateBackoff (cfg : RetryConfig) (retryCount : Nat) (rand : ℚ) : ℚ :=
  let exponential := min cfg.maxDelay (cfg.baseDelay * 2 ^ retryCount)
  let jitter := exponential * (1 / 5) * (rand - 1 / 2)
  let withJitter := exponential + jitter
  max 0 withJitter

/-- `RequestClient.shouldRetry`. -/
def shouldRetry (cfg : RetryConfig) (retryCount : Nat) (status : Nat) : Bool :=
  decide (retryCount < cfg.maxRetries) &&
    (status == 429 || status == 0 ||
      (decide (500 ≤ status) && decide (status < 600)))

/-- `RequestResult` from `RequestClient.ts`. -/
structure RequestResult where
  ok : Bool
  status : Nat
  retryAfter : Option ℚ := none
  bodyText : Option String := none
  error : Option String := none
deriving DecidableEq, Repr

/-- One HTTP response as observed by `send`: the status, the two optional
rate-limit headers (already put through `Number.parseFloat`), the body
text and the status text. -/
structure HttpResponse where
  status : Nat
  retryAfterHdr : Option JsParse
  xRateLimitHdr : Option JsParse
  text : String
  statusText : String
deriving DecidableEq, Repr

/-- Outcome of one network attempt: either `fetch` resolved to a response,
or the transport layer threw (connection error, abort, timeout).  The
`exn` message is the string extracted from the thrown error
(`""` when the exception carried no message). -/
inductive Attempt where
  | resp (r : HttpResponse)
  | exn (message : String)
deriving DecidableEq, Repr

/-- `Response.ok` of the Fetch API: status in the inclusive range 200-299. -/
def respOk (status : Nat) : Bool :=
  decide (200 ≤ status) && decide (status ≤ 299)

/-- JavaScript `a || b` on strings (empty string is falsy). -/
def jsOr (s d : String) : String :=
  if s = "" then d else s

/-- `text || undefined`: an empty body becomes `undefined`. -/
def strOpt (s : String) : Option String :=
  if s = "" then none else some s

/-- Observable trace of one (possibly retrying) `send` call:
the returned `RequestResult`, the instance `retryCount` after the call
returns, the number of network calls performed, and the list of waits
(in milliseconds) inserted between attempts, in order. -/
structure SendTrace where
  result : RequestResult
  finalRetryCount : Nat
  calls : Nat
  waits : List ℚ
deriving DecidableEq, Repr

/-- `RequestClient.send`, with the environment made explicit:
`oracle i` is the outcome of the `i`-th network attempt and `rand i` the
`Math.random()` draw available to that attempt's backoff computation.
`rc` is the instance `retryCount` field at entry (0 for a top-level call).
Mirrors the source: a 2xx response resets the counter and returns
success; a retryable failure within budget increments the counter,
computes the wait (header hint only for status 429, via `??`), sleeps,
and re-invokes `send`; any other outcome resets the counter and returns
a failure result. -/
def sendAux (cfg : RetryConfig) (oracle : Nat → Attempt) (rand : Nat → ℚ)
    (idx rc : Nat) : SendTrace :=
  match oracle idx with
  | .resp r =>
      let retryAfterMs :=
        computeRetryAfterMs (selectRetryHeader r.retryAfterHdr r.xRateLimitHdr)
      if respOk r.status then
        { result := { ok := true, status := r.status, retryAfter := retryAfterMs,
                      bodyText := strOpt r.text },
          finalRetryCount := 0, calls := 1, waits := [] }
      else if h : shouldRetry cfg rc r.status then
        let delayMs :=
          if r.status = 429 then
            retryAfterMs.getD (calculateBackoff cfg (rc + 1) (rand idx))
          else calculateBackoff cfg (rc + 1) (rand idx)
        let rest := sendAux cfg oracle rand (idx + 1) (rc + 1)
        { result := rest.result, finalRetryCount := rest.finalRetryCount,
          calls := rest.calls + 1, waits := delayMs :: rest.waits }
      else
        { result := { ok := false, status := r.status, retryAfter := retryAfterMs,
                      bodyText := strOpt r.text,
                      error := some (jsOr r.text (jsOr r.statusText
                        (String.append "HTTP " (toString r.status)))) },
          finalRetryCount := 0, calls := 1, waits := [] }
  | .exn message =>
      if h : shouldRetry cfg rc 0 then
        let delayMs := calculateBackoff cfg (rc + 1) (rand idx)
        let rest := sendAux cfg oracle rand (idx + 1) (rc + 1)
        { result := rest.result, finalRetryCount := rest.finalRetryCount,
          calls := rest.calls + 1, waits := delayMs :: rest.waits }
      else
        { result := { ok := false, status := 0, error := some (jsOr message "Network error") },
          finalRetryCount := 0, calls := 1, waits := [] }
termination_by cfg.maxRetries - rc
decreasing_by
  all_goals
    simp only [shouldRetry, Bool.and_eq_true, decide_eq_true_eq] at h
    omega

/-- A top-level `send` call: the instance counter starts at 0. -/
def send (cfg : RetryConfig) (oracle : Nat → Attempt) (rand : Nat → ℚ) :
    SendTrace :=
  sendAux cfg oracle rand 0 0

/-- Status carried by an attempt as `send` classifies it: the HTTP status
for a response, the synthesized status 0 for a thrown transport error. -/
def attemptStatus : Attempt → Nat
  | .resp r => r.status
  | .exn _ => 0

/-- An attempt outcome that is always retryable (budget permitting):
a 429 response, a 5xx response, or a transport exception (status 0). -/
def retryableAttempt : Attempt → Prop
  | .resp r => r.status = 429 ∨ (500 ≤ r.status ∧ r.status < 600)
  | .exn _ => True

/-! Abort-signal wiring of one attempt (`RequestClient.send`, the
`controller` / `timeout` / `fetch` lines). -/

/-- The per-call options of `send` that matter for abort wiring: whether
the caller supplied an external `signal`, and the `timeoutMs` value. -/
structure SendInit where
  hasSignal : Bool
  timeoutMs : Option ℚ
deriving DecidableEq, Repr

/-- JavaScript truthiness of an optional number
(`undefined` and `0` are falsy). -/
def jsNumOptTruthy : Option ℚ → Bool
  | none => false
  | some t => decide (t ≠ 0)

/-- Which abort signal the in-flight `fetch` call is wired to. -/
inductive EffectiveSignal where
  | internalController
  | externalSignal
  | noSignal
deriving DecidableEq, Repr

/-- The wiring in `RequestClient.send`:
`controller = timeoutMs ? new AbortController() : undefined` and
`signal: controller?.signal ?? signal`.  A controller exists iff
`timeoutMs` is truthy, and in that case its signal is what `fetch`
receives — the caller's signal is discarded. -/
def effectiveSignal (init : SendInit) : EffectiveSignal :=
  if jsNumOptTruthy init.timeoutMs then .internalController
  else if init.hasSignal then .externalSignal
  else .noSignal

/-! The `Webhook` composer (`Webhook.ts`): the fields its `validate`
method inspects, and the validation itself. -/

/-- One field of an embed (only the parts `validate` reads). -/
structure EmbedField where
  name : Option String
  value : Option String
deriving DecidableEq, Repr

/-- One embed object (only the parts `validate` reads). -/
structure EmbedObj where
  fields : Option (List EmbedField)
deriving DecidableEq, Repr

/-- A `ValidationError` (message and offending field). -/
structure ValidationError where
  message : String
  field : String
deriving DecidableEq, Repr

/-- The `Webhook` instance fields consulted by `validate`. -/
structure WebhookState where
  content : Option String
  embeds : Option (List EmbedObj)
deriving DecidableEq, Repr

/-- `x?.length ?? 0` on an optional string. -/
def optStrLen : Option String → Nat
  | none => 0
  | some s => s.length

/-- The two per-field checks in `Webhook.validate`, in source order:
field name length, then field value length. -/
def validateField (f : EmbedField) : Except ValidationError Unit :=
  if optStrLen f.name > 255 then
    .error { message := "Field name length exceeds 255 characters",
             field := "field.name" }
  else if optStrLen f.value > 1024 then
    .error { message := "Field value length exceeds 1024 characters",
             field := "field.value" }
  else .ok ()

/-- The inner `for (const field of embed.fields ?? [])` loop. -/
def validateFields : List EmbedField → Except ValidationError Unit
  | [] => .ok ()
  | f :: rest =>
    match validateField f with
    | .error e => .error e
    | .ok _ => validateFields rest

/-- The per-embed check: `(embed.fields?.length ?? 0) > 25`, then the
field loop. -/
def validateEmbed (e : EmbedObj) : Except ValidationError Unit :=
  if (e.fields.getD []).length > 25 then
    .error { message := "Fields length exceeds 25", field := "fields" }
  else validateFields (e.fields.getD [])

/-- The outer `for (const embed of this.embeds ?? [])` loop. -/
def validateEmbeds : List EmbedObj → Except ValidationError Unit
  | [] => .ok ()
  | e :: rest =>
    match validateEmbed e with
    | .error err => .error err
    | .ok _ => validateEmbeds rest

/-- `Webhook.validate`: content length, embed count, then the embed loop.
It reads the instance fields and mutates nothing. -/
def validate (w : WebhookState) : Except ValidationError Unit :=
  if optStrLen w.content > 2000 then
    .error { message := "Content length exceeds 2000 characters",
             field := "content" }
  else if (w.embeds.getD []).length > 10 then
    .error { message := "Embeds length exceeds 10", field := "embeds" }
  else validateEmbeds (w.embeds.getD [])

/-- What `Webhook.send` does before/instead of networking: either
`validate` throws and no network request happens, or the call is
delegated to `RequestClient.send` with the given method. -/
inductive WebhookSendAction where
  | raised (e : ValidationError)
  | delegated (method : String)
deriving DecidableEq, Repr

/-- `Webhook.send`: `this.validate(); return this.client.send('POST', ...)`. -/
def webhookSend (w : WebhookState) : WebhookSendAction :=
  match validate w with
  | .error e => .raised e
  | .ok _ => .delegated "POST"

/-- Spec-side predicate for claim C10, written from the claim's own list
of size limits (to compare against the source-derived `validate`):
content longer than 2000, more than 10 embeds, an embed with more than
25 fields, a field name longer than 255, or a field value longer
than 1024. -/
def exceedsLimitsSpec (w : WebhookState) : Bool :=
  decide (optStrLen w.content > 2000) ||
  decide ((w.embeds.getD []).length > 10) ||
  (w.embeds.getD []).any (fun e =>
    decide ((e.fields.getD []).length > 25) ||
    (e.fields.getD []).any (fun f =>
      decide (optStrLen f.name > 255) || decide (optStrLen f.value > 1024)))

/-! Concrete fixtures used by the witness theorems. -/

/-- An environment in which every attempt returns the same outcome. -/
def constOracle (a : Attempt) : Nat → Attempt := fun _ => a

/-- A fixed random stream (`Math.random()` always `1/2`). -/
def halfRand : Nat → ℚ := fun _ => 1 / 2

/-- A bare response with a given status and no rate-limit headers. -/
def plainResp (s : Nat) : HttpResponse :=
  { status := s, retryAfterHdr := none, xRateLimitHdr := none,
    text := "", statusText := "" }

/-- A 429 response carrying a `retry-after: 7` header. -/
def rateLimitedResp : HttpResponse :=
  { status := 429, retryAfterHdr := some (.num 7), xRateLimitHdr := none,
    text := "", statusText := "" }

/-! Branch-level unfolding lemmas for `sendAux`. -/

lemma sendAux_resp_success (cfg : RetryConfig) (oracle : Nat → Attempt)
    (rand : Nat → ℚ) (idx rc : Nat) (r : HttpResponse)
    (h : oracle idx = .resp r) (hok : respOk r.status = true) :
    sendAux cfg oracle rand idx rc =
      { result := { ok := true, status := r.status,
                    retryAfter := computeRetryAfterMs
                      (selectRetryHeader r.retryAfterHdr r.xRateLimitHdr),
                    bodyText := strOpt r.text },
        finalRetryCount := 0, calls := 1, waits := [] } := by
  rw [sendAux.eq_def, h]
  simp [hok]

lemma sendAux_resp_retry (cfg : RetryConfig) (oracle : Nat → Attempt)
    (rand : Nat → ℚ) (idx rc : Nat) (r : HttpResponse)
    (h : oracle idx = .resp r) (hok : respOk r.status = false)
    (hr : shouldRetry cfg rc r.status = true) :
    sendAux cfg oracle rand idx rc =
      { result := (sendAux cfg oracle rand (idx + 1) (rc + 1)).result,
        finalRetryCount := (sendAux cfg oracle rand (idx + 1) (rc + 1)).finalRetryCount,
        calls := (sendAux cfg oracle rand (idx + 1) (rc + 1)).calls + 1,
        waits := (if r.status = 429 then
            (computeRetryAfterMs
              (selectRetryHeader r.retryAfterHdr r.xRateLimitHdr)).getD
              (calculateBackoff cfg (rc + 1) (rand idx))
          else calculateBackoff cfg (rc + 1) (rand idx)) ::
          (sendAux cfg oracle rand (idx + 1) (rc + 1)).waits } := by
  rw [sendAux.eq_def, h]
  simp [hok, hr]

lemma sendAux_resp_terminal (cfg : RetryConfig) (oracle : Nat → Attempt)
    (rand : Nat → ℚ) (idx rc : Nat) (r : HttpResponse)
    (h : oracle idx = .resp r) (hok : respOk r.status = false)
    (hr : shouldRetry cfg rc r.status = false) :
    sendAux cfg oracle rand idx rc =
      { result := { ok := false, status := r.status,
                    retryAfter := computeRetryAfterMs
                      (selectRetryHeader r.retryAfterHdr r.xRateLimitHdr),
                    bodyText := strOpt r.text,
                    error := some (jsOr r.text (jsOr r.statusText
                      (String.append "HTTP " (toString r.status)))) },
        finalRetryCount := 0, calls := 1, waits := [] } := by
  rw [sendAux.eq_def, h]
  simp [hok, hr]

lemma sendAux_exn_retry (cfg : RetryConfig) (oracle : Nat → Attempt)
    (rand : Nat → ℚ) (idx rc : Nat) (message : String)
    (h : oracle idx = .exn message) (hr : shouldRetry cfg rc 0 = true) :
    sendAux cfg oracle rand idx rc =
      { result := (sendAux cfg oracle rand (idx + 1) (rc + 1)).result,
        finalRetryCount := (sendAux cfg oracle rand (idx + 1) (rc + 1)).finalRetryCount,
        calls := (sendAux cfg oracle rand (idx + 1) (rc + 1)).calls + 1,
        waits := calculateBackoff cfg (rc + 1) (rand idx) ::
          (sendAux cfg oracle rand (idx + 1) (rc + 1)).waits } := by
  rw [sendAux.eq_def, h]
  simp [hr]

lemma sendAux_exn_terminal (cfg : RetryConfig) (oracle : Nat → Attempt)
    (rand : Nat → ℚ) (idx rc : Nat) (message : String)
    (h : oracle idx = .exn message) (hr : shouldRetry cfg rc 0 = false) :
    sendAux cfg oracle rand idx rc =
      { result := { ok := false, status := 0,
                    error := some (jsOr message "Network error") },
        finalRetryCount := 0, calls := 1, waits := [] } := by
  rw [sendAux.eq_def, h]
  simp [hr]

/-- C3: the claim fails on the code.  When a call supplies both an
external cancellation signal and `timeoutMs` (here 5000 ms), the `fetch`
attempt is wired only to the internal timeout controller's signal —
`controller?.signal ?? signal` discards the caller's signal — so
triggering the external signal cannot abort the in-flight attempt,
contrary to the claim that whichever of the two fires first aborts it. -/
theorem C3_external_signal_dropped :
    effectiveSignal { hasSignal := true, timeoutMs := some 5000 } =
        EffectiveSignal.internalController ∧
      EffectiveSignal.internalController ≠ EffectiveSignal.externalSignal := by
  constructor
  · norm_num [effectiveSignal, jsNumOptTruthy]
  · simp

/-- C4 (counterexample): a `retry-after` header that parses to the finite
negative value `-5` is kept by the code, producing
`retryAfter = -5000` ms, whereas the claim says a negative header value
yields `retryAfter` undefined. -/
theorem C4_negative_header_kept :
    computeRetryAfterMs (selectRetryHeader (some (JsParse.num (-5))) none) =
        some (-5000) ∧ (-5 : ℚ) < 0 := by
  constructor
  · norm_num [computeRetryAfterMs, selectRetryHeader, jsIsFinite, jsTruthy,
      jsVal]
  · norm_num

/-- C4 (amended): the outcome's `retryAfter` is defined iff the selected
header (`retry-after`, else `x-ratelimit-reset-after`) is present and
parses as a finite NONZERO number — negative values included — and in
that case it equals that number of seconds times 1000; an absent,
non-numeric, non-finite or zero value yields `retryAfter` undefined. -/
theorem C4_retryAfter_amended (ra xrl : Option JsParse) :
    ((computeRetryAfterMs (selectRetryHeader ra xrl)).isSome ↔
        ∃ q : ℚ, selectRetryHeader ra xrl = some (JsParse.num q) ∧ q ≠ 0) ∧
    (∀ q : ℚ, selectRetryHeader ra xrl = some (JsParse.num q) → q ≠ 0 →
        computeRetryAfterMs (selectRetryHeader ra xrl) = some (q * 1000)) ∧
    (∀ v, ra = some v → selectRetryHeader ra xrl = some v) ∧
    (ra = none → selectRetryHeader ra xrl = xrl) := by
  refine ⟨?_, ?_, ?_, ?_⟩
  · cases hsel : selectRetryHeader ra xrl with
    | none => simp [computeRetryAfterMs]
    | some p =>
      cases p with
      | nan => simp [computeRetryAfterMs, jsIsFinite, jsTruthy]
      | inf => simp [computeRetryAfterMs, jsIsFinite, jsTruthy]
      | negInf => simp [computeRetryAfterMs, jsIsFinite, jsTruthy]
      | num q =>
        by_cases hq : q = 0
        · simp [computeRetryAfterMs, jsIsFinite, jsTruthy, hq]
        · simp [computeRetryAfterMs, jsIsFinite, jsTruthy, hq]
  · intro q hsel hq
    rw [hsel]
    simp [computeRetryAfterMs, jsIsFinite, jsTruthy, jsVal, hq]
  · intro v hv
    simp [selectRetryHeader, hv]
  · intro hv
    simp [selectRetryHeader, hv]

/-- Witness for C4: a present `retry-after` header parsing to `3` yields
`retryAfter = 3000` ms. -/
theorem C4_retryAfter_amended_witness :
    computeRetryAfterMs (selectRetryHeader (some (JsParse.num 3)) none) =
      some 3000 := by
  have h := (C4_retryAfter_amended (some (JsParse.num 3)) none).2.1 3 rfl
    (by norm_num)
  rw [h]
  norm_num

/-- C7: a non-retryable status (3xx, or 4xx other than 429) terminates
`send` after exactly one network call, with `ok = false`, the observed
status, and a populated error message, regardless of `maxRetries`. -/
theorem C7_terminal_status_short_circuits (cfg : RetryConfig)
    (oracle : Nat → Attempt) (rand : Nat → ℚ) (r : HttpResponse)
    (hor : oracle 0 = Attempt.resp r) (h3 : 300 ≤ r.status)
    (h5 : r.status < 500) (h429 : r.status ≠ 429) :
    (send cfg oracle rand).calls = 1 ∧
    (send cfg oracle rand).result.ok = false ∧
    (send cfg oracle rand).result.status = r.status ∧
    (send cfg oracle rand).result.error.isSome = true := by
  have hok : respOk r.status = false := by
    simp only [respOk, Bool.and_eq_false_iff, decide_eq_false_iff_not, not_le]
    omega
  have hr : shouldRetry cfg 0 r.status = false := by
    simp only [shouldRetry, Bool.and_eq_false_iff, Bool.or_eq_false_iff,
      decide_eq_false_iff_not, not_lt, not_le, beq_eq_false_iff_ne, ne_eq]
    right
    refine ⟨⟨h429, by omega⟩, ?_⟩
    left
    omega
  rw [send, sendAux_resp_terminal cfg oracle rand 0 0 r hor hok hr]
  simp

/-- Witness for C7: a 404 response with `maxRetries = 3` gives one call
and `ok = false`, `status = 404`. -/
theorem C7_terminal_status_short_circuits_witness :
    (send DEFAULT_RETRY_CONFIG (constOracle (.resp (plainResp 404))) halfRand).calls = 1 ∧
    (send DEFAULT_RETRY_CONFIG (constOracle (.resp (plainResp 404))) halfRand).result.ok = false ∧
    (send DEFAULT_RETRY_CONFIG (constOracle (.resp (plainResp 404))) halfRand).result.status = 404 ∧
    (send DEFAULT_RETRY_CONFIG (constOracle (.resp (plainResp 404))) halfRand).result.error.isSome = true :=
  C7_terminal_status_short_circuits DEFAULT_RETRY_CONFIG
    (constOracle (.resp (plainResp 404))) halfRand (plainResp 404)
    rfl (by norm_num [plainResp]) (by norm_num [plainResp])
    (by norm_num [plainResp])

/-- C8: when the transport throws and no retry budget remains
(`maxRetries = 0`), `send` does not raise: it performs exactly one
attempt and returns `ok = false`, `status = 0`, no `retryAfter`, and an
error message taken from the thrown error's message, or the generic
string "Network error" when the exception carried no message. -/
theorem C8_transport_error_exhausted (cfg : RetryConfig)
    (oracle : Nat → Attempt) (rand : Nat → ℚ) (msg : String)
    (hmax : cfg.maxRetries = 0) (hor : oracle 0 = Attempt.exn msg) :
    (send cfg oracle rand).calls = 1 ∧
    (send cfg oracle rand).result =
      { ok := false, status := 0, retryAfter := none, bodyText := none,
        error := some (jsOr msg "Network error") } := by
  have hr : shouldRetry cfg 0 0 = false := by
    simp [shouldRetry, hmax]
  rw [send, sendAux_exn_terminal cfg oracle rand 0 0 msg hor hr]
  exact ⟨rfl, rfl⟩

/-- Witness for C8: a thrown connection error with `maxRetries = 0`. -/
theorem C8_transport_error_exhausted_witness :
    (send { maxRetries := 0, baseDelay := 1000, maxDelay := 60000 }
      (constOracle (.exn "connect ECONNREFUSED")) halfRand).calls = 1 ∧
    (send { maxRetries := 0, baseDelay := 1000, maxDelay := 60000 }
      (constOracle (.exn "connect ECONNREFUSED")) halfRand).result =
      { ok := false, status := 0, retryAfter := none, bodyText := none,
        error := some (jsOr "connect ECONNREFUSED" "Network error") } :=
  C8_transport_error_exhausted
    { maxRetries := 0, baseDelay := 1000, maxDelay := 60000 }
    (constOracle (.exn "connect ECONNREFUSED")) halfRand
    "connect ECONNREFUSED" rfl rfl

/-! Facts about `calculateBackoff` shared by the backoff proofs. -/

lemma exponential_pos (cfg : RetryConfig) (k : Nat)
    (hb : 0 < cfg.baseDelay) (hbm : cfg.baseDelay ≤ cfg.maxDelay) :
    0 < min cfg.maxDelay (cfg.baseDelay * 2 ^ k) := by
  apply lt_min (hb.trans_le hbm)
  positivity

lemma calculateBackoff_no_clamp (cfg : RetryConfig) (k : Nat) (rand : ℚ)
    (hb : 0 < cfg.baseDelay) (hbm : cfg.baseDelay ≤ cfg.maxDelay)
    (h0 : 0 ≤ rand) (_h1 : rand ≤ 1) :
    calculateBackoff cfg k rand =
      min cfg.maxDelay (cfg.baseDelay * 2 ^ k) +
        min cfg.maxDelay (cfg.baseDelay * 2 ^ k) * (1 / 5) * (rand - 1 / 2) := by
  have he := exponential_pos cfg k hb hbm
  unfold calculateBackoff
  apply max_eq_right
  nlinarith [he]

lemma calculateBackoff_avg (cfg : RetryConfig) (k : Nat) (rand : ℚ)
    (hb : 0 < cfg.baseDelay) (hbm : cfg.baseDelay ≤ cfg.maxDelay)
    (h0 : 0 ≤ rand) (h1 : rand ≤ 1) :
    (calculateBackoff cfg k rand + calculateBackoff cfg k (1 - rand)) / 2 =
      min cfg.maxDelay (cfg.baseDelay * 2 ^ k) := by
  rw [calculateBackoff_no_clamp cfg k rand hb hbm h0 h1,
    calculateBackoff_no_clamp cfg k (1 - rand) hb hbm (by linarith) (by linarith)]
  ring

/-- C5: for any policy with `0 < baseDelay ≤ maxDelay`, any retry count
`k` and any random draw `rand ∈ [0,1]` (so `r := rand - 1/2 ∈ [-1/2,1/2]`),
the computed backoff equals `max(0, e + e*0.2*r)` with
`e = min(maxDelay, baseDelay * 2^k)`; it lies within
`[0, maxDelay * 1.2]`; its average over the symmetric pair of draws
`rand, 1-rand` (the expected value, by symmetry of the jitter) equals `e`
and is nondecreasing in the retry count up to the cap `maxDelay`. -/
theorem C5_backoff_bounds (cfg : RetryConfig) (k : Nat) (rand : ℚ)
    (hb : 0 < cfg.baseDelay) (hbm : cfg.baseDelay ≤ cfg.maxDelay)
    (h0 : 0 ≤ rand) (h1 : rand ≤ 1) :
    calculateBackoff cfg k rand =
        max 0 (min cfg.maxDelay (cfg.baseDelay * 2 ^ k) +
          min cfg.maxDelay (cfg.baseDelay * 2 ^ k) * (1 / 5) * (rand - 1 / 2)) ∧
    0 ≤ calculateBackoff cfg k rand ∧
    calculateBackoff cfg k rand ≤ cfg.maxDelay * (12 / 10) ∧
    (calculateBackoff cfg k rand + calculateBackoff cfg k (1 - rand)) / 2 =
        min cfg.maxDelay (cfg.baseDelay * 2 ^ k) ∧
    (calculateBackoff cfg k rand + calculateBackoff cfg k (1 - rand)) / 2 ≤
        (calculateBackoff cfg (k + 1) rand +
          calculateBackoff cfg (k + 1) (1 - rand)) / 2 := by
  have he := exponential_pos cfg k hb hbm
  refine ⟨rfl, ?_, ?_, calculateBackoff_avg cfg k rand hb hbm h0 h1, ?_⟩
  · unfold calculateBackoff
    exact le_max_left 0 _
  · rw [calculateBackoff_no_clamp cfg k rand hb hbm h0 h1]
    have hle : min cfg.maxDelay (cfg.baseDelay * 2 ^ k) ≤ cfg.maxDelay :=
      min_le_left _ _
    nlinarith [he, hle]
  · rw [calculateBackoff_avg cfg k rand hb hbm h0 h1,
      calculateBackoff_avg cfg (k + 1) rand hb hbm h0 h1]
    apply min_le_min le_rfl
    have h2 : (2 : ℚ) ^ k ≤ 2 ^ (k + 1) := by
      apply pow_le_pow_right₀ (by norm_num)
      omega
    nlinarith [h2, hb]

/-- Witness for C5: the default policy at retry count 0 with the draw
`rand = 1/2` (zero jitter). -/
theorem C5_backoff_bounds_witness :
    calculateBackoff DEFAULT_RETRY_CONFIG 0 (1 / 2) =
        max 0 (min DEFAULT_RETRY_CONFIG.maxDelay
            (DEFAULT_RETRY_CONFIG.baseDelay * 2 ^ 0) +
          min DEFAULT_RETRY_CONFIG.maxDelay
            (DEFAULT_RETRY_CONFIG.baseDelay * 2 ^ 0) * (1 / 5) *
            ((1 : ℚ) / 2 - 1 / 2)) ∧
    0 ≤ calculateBackoff DEFAULT_RETRY_CONFIG 0 (1 / 2) ∧
    calculateBackoff DEFAULT_RETRY_CONFIG 0 (1 / 2) ≤
        DEFAULT_RETRY_CONFIG.maxDelay * (12 / 10) ∧
    (calculateBackoff DEFAULT_RETRY_CONFIG 0 (1 / 2) +
        calculateBackoff DEFAULT_RETRY_CONFIG 0 (1 - 1 / 2)) / 2 =
      min DEFAULT_RETRY_CONFIG.maxDelay
        (DEFAULT_RETRY_CONFIG.baseDelay * 2 ^ 0) ∧
    (calculateBackoff DEFAULT_RETRY_CONFIG 0 (1 / 2) +
        calculateBackoff DEFAULT_RETRY_CONFIG 0 (1 - 1 / 2)) / 2 ≤
      (calculateBackoff DEFAULT_RETRY_CONFIG (0 + 1) (1 / 2) +
        calculateBackoff DEFAULT_RETRY_CONFIG (0 + 1) (1 - 1 / 2)) / 2 :=
  C5_backoff_bounds DEFAULT_RETRY_CONFIG 0 (1 / 2)
    (by norm_num [DEFAULT_RETRY_CONFIG]) (by norm_num [DEFAULT_RETRY_CONFIG])
    (by norm_num) (by norm_num)

/-- C2: inside any retried attempt, the wait before the next attempt is
selected as follows: when the response status is exactly 429 and a valid
retry hint was extracted from the headers, the wait equals the
header-derived milliseconds; for every other retryable outcome (a 5xx
response, or a transport exception classified as status 0) the wait is
the computed exponential backoff — even when a hint is present. -/
theorem C2_rate_limit_hint_precedence (cfg : RetryConfig)
    (oracle : Nat → Attempt) (rand : Nat → ℚ) (idx rc : Nat) :
    (∀ (r : HttpResponse) (m : ℚ), oracle idx = Attempt.resp r →
        r.status = 429 → shouldRetry cfg rc r.status = true →
        computeRetryAfterMs
            (selectRetryHeader r.retryAfterHdr r.xRateLimitHdr) = some m →
        (sendAux cfg oracle rand idx rc).waits.head? = some m) ∧
    (∀ r : HttpResponse, oracle idx = Attempt.resp r → r.status ≠ 429 →
        shouldRetry cfg rc r.status = true →
        (sendAux cfg oracle rand idx rc).waits.head? =
          some (calculateBackoff cfg (rc + 1) (rand idx))) ∧
    (∀ msg : String, oracle idx = Attempt.exn msg →
        shouldRetry cfg rc 0 = true →
        (sendAux cfg oracle rand idx rc).waits.head? =
          some (calculateBackoff cfg (rc + 1) (rand idx))) := by
  refine ⟨?_, ?_, ?_⟩
  · intro r m hor h429 hretry hhint
    have hok : respOk r.status = false := by
      simp only [respOk, Bool.and_eq_false_iff, decide_eq_false_iff_not,
        not_le]
      omega
    rw [sendAux_resp_retry cfg oracle rand idx rc r hor hok hretry]
    simp [h429, hhint]
  · intro r hor h429 hretry
    have hst : r.status = 0 ∨ (500 ≤ r.status ∧ r.status < 600) := by
      simp only [shouldRetry, Bool.and_eq_true, Bool.or_eq_true,
        decide_eq_true_eq, beq_iff_eq] at hretry
      omega
    have hok : respOk r.status = false := by
      simp only [respOk, Bool.and_eq_false_iff, decide_eq_false_iff_not,
        not_le]
      rcases hst with h | h <;> omega
    rw [sendAux_resp_retry cfg oracle rand idx rc r hor hok hretry]
    simp [h429]
  · intro msg hor hretry
    rw [sendAux_exn_retry cfg oracle rand idx rc msg hor hretry]
    simp

/-- Witness for C2: a 429 response with a `retry-after: 7` header under
the default policy waits 7000 ms before the next attempt. -/
theorem C2_rate_limit_hint_precedence_witness :
    (sendAux DEFAULT_RETRY_CONFIG (constOracle (.resp rateLimitedResp))
        halfRand 0 0).waits.head? = some 7000 := by
  have h := (C2_rate_limit_hint_precedence DEFAULT_RETRY_CONFIG
      (constOracle (.resp rateLimitedResp)) halfRand 0 0).1
    rateLimitedResp 7000 rfl rfl (by decide)
    (by norm_num [rateLimitedResp, selectRetryHeader, computeRetryAfterMs,
      jsIsFinite, jsTruthy, jsVal])
  exact h

/-! Induction over the retry chain. -/

lemma shouldRetry_false_of_exhausted (cfg : RetryConfig) (rc status : Nat)
    (h : cfg.maxRetries ≤ rc) : shouldRetry cfg rc status = false := by
  simp only [shouldRetry, Bool.and_eq_false_iff, decide_eq_false_iff_not,
    not_lt]
  exact Or.inl h

lemma shouldRetry_budget (cfg : RetryConfig) (rc status : Nat)
    (h : shouldRetry cfg rc status = true) : rc < cfg.maxRetries := by
  simp only [shouldRetry, Bool.and_eq_true, decide_eq_true_eq] at h
  exact h.1

lemma retryable_respOk_false (r : HttpResponse)
    (h : r.status = 429 ∨ (500 ≤ r.status ∧ r.status < 600)) :
    respOk r.status = false := by
  simp only [respOk, Bool.and_eq_false_iff, decide_eq_false_iff_not, not_le]
  omega

lemma retryable_shouldRetry (cfg : RetryConfig) (rc : Nat) (r : HttpResponse)
    (hrc : rc < cfg.maxRetries)
    (h : r.status = 429 ∨ (500 ≤ r.status ∧ r.status < 600)) :
    shouldRetry cfg rc r.status = true := by
  simp only [shouldRetry, Bool.and_eq_true, Bool.or_eq_true,
    decide_eq_true_eq, beq_iff_eq]
  omega

lemma sendAux_all_retryable (cfg : RetryConfig) (oracle : Nat → Attempt)
    (rand : Nat → ℚ) (hall : ∀ i, retryableAttempt (oracle i)) :
    ∀ (n idx rc : Nat), cfg.maxRetries - rc = n →
      (sendAux cfg oracle rand idx rc).calls = n + 1 ∧
      (sendAux cfg oracle rand idx rc).result.ok = false ∧
      (sendAux cfg oracle rand idx rc).result.status =
        attemptStatus (oracle (idx + n)) := by
  intro n
  induction n with
  | zero =>
    intro idx rc hn
    have hrc : cfg.maxRetries ≤ rc := by omega
    cases ho : oracle idx with
    | resp r =>
      have hra := hall idx
      rw [ho] at hra
      have hok : respOk r.status = false := retryable_respOk_false r hra
      have hr : shouldRetry cfg rc r.status = false :=
        shouldRetry_false_of_exhausted cfg rc r.status hrc
      rw [sendAux_resp_terminal cfg oracle rand idx rc r ho hok hr]
      simp [attemptStatus, ho]
    | exn m =>
      have hr : shouldRetry cfg rc 0 = false :=
        shouldRetry_false_of_exhausted cfg rc 0 hrc
      rw [sendAux_exn_terminal cfg oracle rand idx rc m ho hr]
      simp [attemptStatus, ho]
  | succ n ih =>
    intro idx rc hn
    have hrc : rc < cfg.maxRetries := by omega
    have hrest := ih (idx + 1) (rc + 1) (by omega)
    cases ho : oracle idx with
    | resp r =>
      have hra := hall idx
      rw [ho] at hra
      have hok : respOk r.status = false := retryable_respOk_false r hra
      have hr : shouldRetry cfg rc r.status = true :=
        retryable_shouldRetry cfg rc r hrc hra
      rw [sendAux_resp_retry cfg oracle rand idx rc r ho hok hr]
      refine ⟨?_, ?_, ?_⟩
      · show (sendAux cfg oracle rand (idx + 1) (rc + 1)).calls + 1 = n + 1 + 1
        rw [hrest.1]
      · exact hrest.2.1
      · show (sendAux cfg oracle rand (idx + 1) (rc + 1)).result.status =
          attemptStatus (oracle (idx + (n + 1)))
        rw [hrest.2.2, show idx + 1 + n = idx + (n + 1) by omega]
    | exn m =>
      have hr : shouldRetry cfg rc 0 = true := by
        simp [shouldRetry, hrc]
      rw [sendAux_exn_retry cfg oracle rand idx rc m ho hr]
      refine ⟨?_, ?_, ?_⟩
      · show (sendAux cfg oracle rand (idx + 1) (rc + 1)).calls + 1 = n + 1 + 1
        rw [hrest.1]
      · exact hrest.2.1
      · show (sendAux cfg oracle rand (idx + 1) (rc + 1)).result.status =
          attemptStatus (oracle (idx + (n + 1)))
        rw [hrest.2.2, show idx + 1 + n = idx + (n + 1) by omega]

/-- C1: starting from retry counter 0 with `maxRetries = N`, if every
attempt yields a retryable outcome (a 429 response, a 5xx response, or a
transport exception classified as status 0), `send` performs exactly
`N + 1` network calls and returns `ok = false` carrying the status of
the last observed failure. -/
theorem C1_bounded_retries (cfg : RetryConfig) (oracle : Nat → Attempt)
    (rand : Nat → ℚ) (hall : ∀ i, retryableAttempt (oracle i)) :
    (send cfg oracle rand).calls = cfg.maxRetries + 1 ∧
    (send cfg oracle rand).result.ok = false ∧
    (send cfg oracle rand).result.status =
      attemptStatus (oracle cfg.maxRetries) := by
  have h := sendAux_all_retryable cfg oracle rand hall cfg.maxRetries 0 0
    (by omega)
  simpa [send] using h

/-- Witness for C1: every attempt returns 500 under `maxRetries = 2`,
giving 3 calls and a final `ok = false`, `status = 500`. -/
theorem C1_bounded_retries_witness :
    (send { maxRetries := 2, baseDelay := 1000, maxDelay := 60000 }
      (constOracle (.resp (plainResp 500))) halfRand).calls = 2 + 1 ∧
    (send { maxRetries := 2, baseDelay := 1000, maxDelay := 60000 }
      (constOracle (.resp (plainResp 500))) halfRand).result.ok = false ∧
    (send { maxRetries := 2, baseDelay := 1000, maxDelay := 60000 }
      (constOracle (.resp (plainResp 500))) halfRand).result.status =
      attemptStatus (constOracle (.resp (plainResp 500)) 2) :=
  C1_bounded_retries { maxRetries := 2, baseDelay := 1000, maxDelay := 60000 }
    (constOracle (.resp (plainResp 500))) halfRand
    (fun _ => Or.inr (by norm_num [plainResp]))

lemma sendAux_finalRetryCount_zero (cfg : RetryConfig)
    (oracle : Nat → Attempt) (rand : Nat → ℚ) :
    ∀ (n idx rc : Nat), cfg.maxRetries - rc ≤ n →
      (sendAux cfg oracle rand idx rc).finalRetryCount = 0 := by
  intro n
  induction n with
  | zero =>
    intro idx rc hn
    have hrc : cfg.maxRetries ≤ rc := by omega
    cases ho : oracle idx with
    | resp r =>
      by_cases hok : respOk r.status = true
      · rw [sendAux_resp_success cfg oracle rand idx rc r ho hok]
      · rw [sendAux_resp_terminal cfg oracle rand idx rc r ho
          (by simpa using hok)
          (shouldRetry_false_of_exhausted cfg rc r.status hrc)]
    | exn m =>
      rw [sendAux_exn_terminal cfg oracle rand idx rc m ho
        (shouldRetry_false_of_exhausted cfg rc 0 hrc)]
  | succ n ih =>
    intro idx rc hn
    cases ho : oracle idx with
    | resp r =>
      by_cases hok : respOk r.status = true
      · rw [sendAux_resp_success cfg oracle rand idx rc r ho hok]
      · have hok' : respOk r.status = false := by simpa using hok
        by_cases hr : shouldRetry cfg rc r.status = true
        · rw [sendAux_resp_retry cfg oracle rand idx rc r ho hok' hr]
          exact ih (idx + 1) (rc + 1) (by omega)
        · rw [sendAux_resp_terminal cfg oracle rand idx rc r ho hok'
            (by simpa using hr)]
    | exn m =>
      by_cases hr : shouldRetry cfg rc 0 = true
      · rw [sendAux_exn_retry cfg oracle rand idx rc m ho hr]
        exact ih (idx + 1) (rc + 1) (by omega)
      · rw [sendAux_exn_terminal cfg oracle rand idx rc m ho
          (by simpa using hr)]

/-- C6: every terminating top-level `send` call — success, terminal
status, exhausted retries, or terminal transport failure — leaves the
instance's `retryCount` field equal to 0 when it returns; the counter
only carries state across the internal retry chain of one logical call. -/
theorem C6_counter_resets (cfg : RetryConfig) (oracle : Nat → Attempt)
    (rand : Nat → ℚ) :
    (send cfg oracle rand).finalRetryCount = 0 :=
  sendAux_finalRetryCount_zero cfg oracle rand cfg.maxRetries 0 0 (by omega)

lemma sendAux_ok_iff_2xx (cfg : RetryConfig) (oracle : Nat → Attempt)
    (rand : Nat → ℚ) :
    ∀ (n idx rc : Nat), cfg.maxRetries - rc ≤ n →
      ((sendAux cfg oracle rand idx rc).result.ok = true ↔
        200 ≤ (sendAux cfg oracle rand idx rc).result.status ∧
          (sendAux cfg oracle rand idx rc).result.status < 300) := by
  intro n
  induction n with
  | zero =>
    intro idx rc hn
    have hrc : cfg.maxRetries ≤ rc := by omega
    cases ho : oracle idx with
    | resp r =>
      by_cases hok : respOk r.status = true
      · rw [sendAux_resp_success cfg oracle rand idx rc r ho hok]
        simp only [respOk, Bool.and_eq_true, decide_eq_true_eq] at hok
        simp only [true_iff]
        omega
      · have hok' : respOk r.status = false := by simpa using hok
        rw [sendAux_resp_terminal cfg oracle rand idx rc r ho hok'
          (shouldRetry_false_of_exhausted cfg rc r.status hrc)]
        simp only [respOk, Bool.and_eq_false_iff,
          decide_eq_false_iff_not, not_le] at hok'
        simp only [Bool.false_eq_true, false_iff]
        omega
    | exn m =>
      rw [sendAux_exn_terminal cfg oracle rand idx rc m ho
        (shouldRetry_false_of_exhausted cfg rc 0 hrc)]
      simp
  | succ n ih =>
    intro idx rc hn
    cases ho : oracle idx with
    | resp r =>
      by_cases hok : respOk r.status = true
      · rw [sendAux_resp_success cfg oracle rand idx rc r ho hok]
        simp only [respOk, Bool.and_eq_true, decide_eq_true_eq] at hok
        simp only [true_iff]
        omega
      · have hok' : respOk r.status = false := by simpa using hok
        by_cases hr : shouldRetry cfg rc r.status = true
        · rw [sendAux_resp_retry cfg oracle rand idx rc r ho hok' hr]
          exact ih (idx + 1) (rc + 1) (by omega)
        · rw [sendAux_resp_terminal cfg oracle rand idx rc r ho hok'
            (by simpa using hr)]
          simp only [respOk, Bool.and_eq_false_iff,
            decide_eq_false_iff_not, not_le] at hok'
          simp only [Bool.false_eq_true, false_iff]
          omega
    | exn m =>
      by_cases hr : shouldRetry cfg rc 0 = true
      · rw [sendAux_exn_retry cfg oracle rand idx rc m ho hr]
        exact ih (idx + 1) (rc + 1) (by omega)
      · rw [sendAux_exn_terminal cfg oracle rand idx rc m ho
          (by simpa using hr)]
        simp

/-- C9: for every outcome returned by `send`, `ok` is true iff the status
of the attempt that terminated the loop lies in `[200, 300)`; in
particular a status-0 outcome always has `ok = false`, and `ok` and
`status` are never inconsistent. -/
theorem C9_ok_iff_2xx (cfg : RetryConfig) (oracle : Nat → Attempt)
    (rand : Nat → ℚ) :
    (send cfg oracle rand).result.ok = true ↔
      200 ≤ (send cfg oracle rand).result.status ∧
        (send cfg oracle rand).result.status < 300 :=
  sendAux_ok_iff_2xx cfg oracle rand cfg.maxRetries 0 0 (by omega)

/-! `Webhook.validate` versus the size limits enumerated by the spec. -/

lemma validateField_ok_iff (f : EmbedField) :
    validateField f = .ok () ↔
      optStrLen f.name ≤ 255 ∧ optStrLen f.value ≤ 1024 := by
  unfold validateField
  split_ifs with h1 h2 <;> simp <;> omega

lemma validateFields_ok_iff (l : List EmbedField) :
    validateFields l = .ok () ↔
      ∀ f ∈ l, optStrLen f.name ≤ 255 ∧ optStrLen f.value ≤ 1024 := by
  induction l with
  | nil => simp [validateFields]
  | cons f rest ih =>
    simp only [validateFields]
    cases hv : validateField f with
    | error e =>
      simp only [List.mem_cons]
      constructor
      · intro h
        cases h
      · intro hall
        exfalso
        have hok : validateField f = .ok () :=
          (validateField_ok_iff f).2 (hall f (Or.inl rfl))
        rw [hv] at hok
        cases hok
    | ok u =>
      cases u
      rw [ih]
      constructor
      · intro hall g hg
        rcases List.mem_cons.1 hg with hg | hg
        · subst hg
          exact (validateField_ok_iff g).1 hv
        · exact hall g hg
      · intro hall g hg
        exact hall g (List.mem_cons_of_mem f hg)

lemma validateEmbed_ok_iff (e : EmbedObj) :
    validateEmbed e = .ok () ↔
      (e.fields.getD []).length ≤ 25 ∧
        ∀ f ∈ e.fields.getD [],
          optStrLen f.name ≤ 255 ∧ optStrLen f.value ≤ 1024 := by
  unfold validateEmbed
  split_ifs with h1
  · constructor
    · intro h
      cases h
    · intro h
      omega
  · rw [validateFields_ok_iff]
    constructor
    · intro h
      exact ⟨by omega, h⟩
    · intro h
      exact h.2

lemma validateEmbeds_ok_iff (l : List EmbedObj) :
    validateEmbeds l = .ok () ↔ ∀ e ∈ l, validateEmbed e = .ok () := by
  induction l with
  | nil => simp [validateEmbeds]
  | cons e rest ih =>
    simp only [validateEmbeds]
    cases hv : validateEmbed e with
    | error err =>
      constructor
      · intro h
        cases h
      · intro hall
        exfalso
        have hok := hall e (List.mem_cons_self e rest)
        rw [hv] at hok
        cases hok
    | ok u =>
      cases u
      rw [ih]
      constructor
      · intro hall g hg
        rcases List.mem_cons.1 hg with hg | hg
        · subst hg
          exact hv
        · exact hall g hg
      · intro hall g hg
        exact hall g (List.mem_cons_of_mem e hg)

lemma exceedsLimitsSpec_false_iff (w : WebhookState) :
    exceedsLimitsSpec w = false ↔
      optStrLen w.content ≤ 2000 ∧ (w.embeds.getD []).length ≤ 10 ∧
        ∀ e ∈ w.embeds.getD [],
          (e.fields.getD []).length ≤ 25 ∧
            ∀ f ∈ e.fields.getD [],
              optStrLen f.name ≤ 255 ∧ optStrLen f.value ≤ 1024 := by
  simp [exceedsLimitsSpec, not_or, and_assoc]

lemma validate_ok_iff (w : WebhookState) :
    validate w = .ok () ↔ exceedsLimitsSpec w = false := by
  rw [exceedsLimitsSpec_false_iff]
  unfold validate
  split_ifs with h1 h2
  · constructor
    · intro h
      cases h
    · intro h
      omega
  · constructor
    · intro h
      cases h
    · intro h
      omega
  · rw [validateEmbeds_ok_iff]
    constructor
    · intro h
      refine ⟨by omega, by omega, ?_⟩
      intro e he
      exact (validateEmbed_ok_iff e).1 (h e he)
    · rintro ⟨-, -, h3⟩
      intro e he
      exact (validateEmbed_ok_iff e).2 (h3 e he)

/-- C10: a composed message that violates one of the size limits
(content over 2000 characters, more than 10 embeds, an embed with more
than 25 fields, a field name over 255 characters, or a field value over
1024 characters) makes `Webhook.send` raise a `ValidationError` before
any network request is made (`validate` only reads the instance fields,
so the webhook's state is unchanged); a message satisfying every limit
is delegated to the delivery engine with method POST. -/
theorem C10_validation_gate (w : WebhookState) :
    (exceedsLimitsSpec w = true →
        ∃ e : ValidationError, webhookSend w = .raised e) ∧
    (exceedsLimitsSpec w = false → webhookSend w = .delegated "POST") := by
  constructor
  · intro h
    cases hv : validate w with
    | error e =>
      exact ⟨e, by simp [webhookSend, hv]⟩
    | ok u =>
      cases u
      have hfalse : exceedsLimitsSpec w = false := (validate_ok_iff w).1 hv
      rw [hfalse] at h
      exact Bool.noConfusion h
  · intro h
    have hv : validate w = .ok () := (validate_ok_iff w).2 h
    simp [webhookSend, hv]

/-- Witness for C10: a webhook whose content is within the limits is
delegated with method POST. -/
theorem C10_validation_gate_witness :
    webhookSend { content := some "hello", embeds := none } =
      WebhookSendAction.delegated "POST" :=
  (C10_validation_gate { content := some "hello", embeds := none }).2
    (by decide)

end EzHook
